import Mathlib

deriving instance DecidableEq for Except

/-!
Verification development for the GoAutoGui repository (Windows GUI-automation
library).  The Go sources are shallowly embedded: pure computations become Lean
functions, and every interaction with the native win32 layer (treated by the
library itself as a black box) is made explicit, either as an entry in an
environment record supplied to the embedded function, or as an element of the
list of native actions the function emits (its trace).

Conventions used throughout:
* Go `int` / `int32` values are modelled as `Int` (no arithmetic here comes
  close to overflowing 64 bits, except where noted for `image.NewRGBA`, where
  the 63-bit bound is modelled explicitly).
* Go `float64` values are modelled as `ℚ`; every float operation appearing in
  the embedded code (`+`, `-`, `*`, `/`, comparisons, conversion to `int`) is
  mapped to its exact rational counterpart.  Conversion `int(f)` truncates
  toward zero in Go and is modelled by `intOfFloat`.
* Fallible Go functions returning `(T, error)` become `Except E T`; each error
  constructor is documented with the exact Go error message it stands for.
* `win32.Keybd_event` returns no status and the binding's `sendKeyboardEvent`
  wrapper consequently always returns `nil`.  The spec nevertheless describes
  the behaviour of the error-handling paths (`Hold` cleanup, `Release`
  fail-fast, …), so the result of each native keyboard emission is drawn from
  an oracle `KeyEnv.eventOk`; instantiating the oracle with `fun _ _ => true`
  recovers the literal always-`nil` binding.
-/

namespace GoAutoGui

/-- The source's `KeyboardKeys` integer type of virtual-key codes (its constant
definitions live in a file that only fixes numeric values; the numeric identity
is all that matters here). -/
abbrev KeyboardKeys := Nat

/-- One observable keyboard action at the win32 boundary: a `Keybd_event`
emission without `KEYEVENTF_KEYUP` (`down`), one with it (`up`), or a
`time.Sleep` call whose payload is the slept `time.Duration`. -/
inductive KeyEvent where
  | down (k : KeyboardKeys)
  | up (k : KeyboardKeys)
  | sleep (d : Int)
deriving DecidableEq, Repr

/-- Errors of the keyboard driver (src/windows/keyboard.go).  Constructors
stand for the Go messages:
* `noKeysProvided`      — `"no keys provided for HotKey"`
* `pressFailed k`       — `VKeyDown`: `"failed to press key: %v"`
* `releaseFailed k`     — `VKeyUp` wrapped by the caller: `"failed to release key '%d': %v"`
* `holdPressFailed k`   — `Hold`: `"failed to press key down '%d': %w"`
* `hotKeyPressFailed k` / `hotKeyReleaseFailed k` — the two wrapping sites in
  `HotKey` (both use the text `"failed to release key '%s': %v"`; the first is
  a copy-paste of the second). -/
inductive KeyError where
  | noKeysProvided
  | pressFailed (k : KeyboardKeys)
  | releaseFailed (k : KeyboardKeys)
  | holdPressFailed (k : KeyboardKeys)
  | hotKeyPressFailed (k : KeyboardKeys)
  | hotKeyReleaseFailed (k : KeyboardKeys)
deriving DecidableEq, Repr

/-- Oracle for the native keyboard boundary: `eventOk k isUp` tells whether the
emission of the corresponding event is treated as succeeding. -/
structure KeyEnv where
  eventOk : KeyboardKeys → Bool → Bool

/-- `sendKeyboardEvent` (keyboard.go:16): calls `win32.Keybd_event` — recorded
in the trace — and reports the oracle's verdict (the binding itself always
reports success). -/
def sendKeyboardEvent (env : KeyEnv) (vk : KeyboardKeys) (isUp : Bool) :
    Bool × List KeyEvent :=
  (env.eventOk vk isUp, [if isUp then KeyEvent.up vk else KeyEvent.down vk])

/-- `VKeyDown` (keyboard.go:34): emit the key-down event, wrapping a failure. -/
def VKeyDown (env : KeyEnv) (key : KeyboardKeys) :
    Except KeyError Unit × List KeyEvent :=
  match sendKeyboardEvent env key false with
  | (true, tr) => (Except.ok (), tr)
  | (false, tr) => (Except.error (KeyError.pressFailed key), tr)

/-- `VKeyUp` (keyboard.go:46): emit the key-up event, wrapping a failure. -/
def VKeyUp (env : KeyEnv) (key : KeyboardKeys) :
    Except KeyError Unit × List KeyEvent :=
  match sendKeyboardEvent env key true with
  | (true, tr) => (Except.ok (), tr)
  | (false, tr) => (Except.error (KeyError.pressFailed key), tr)

/-- The loop of `Hold` (keyboard.go:200-217), with `pressed` the accumulator of
keys pressed so far.  On a failing press it releases the keys of `pressed` —
in their stored order, via `for _, pk := range pressed`, ignoring errors — and
returns the wrapped error; on completion it returns the pressed keys. -/
def holdGo (env : KeyEnv) :
    List KeyboardKeys → List KeyboardKeys →
    Except KeyError (List KeyboardKeys) × List KeyEvent
  | [], pressed => (Except.ok pressed, [])
  | k :: rest, pressed =>
    match VKeyDown env k with
    | (Except.error _, tr) =>
      (Except.error (KeyError.holdPressFailed k), tr ++ pressed.map KeyEvent.up)
    | (Except.ok _, tr) =>
      let r := holdGo env rest (pressed ++ [k])
      (r.1, tr ++ r.2)

/-- `HoldContext` (keyboard.go:194): the ordered held-key set. -/
structure HoldContext where
  keys : List KeyboardKeys
deriving DecidableEq, Repr

/-- `Hold` (keyboard.go:200): press each key down in order; on a mid-sequence
failure release the successfully pressed keys and return the error; otherwise
return a context holding the pressed keys. -/
def Hold (env : KeyEnv) (keys : List KeyboardKeys) :
    Except KeyError HoldContext × List KeyEvent :=
  match holdGo env keys [] with
  | (Except.ok pressed, tr) => (Except.ok ⟨pressed⟩, tr)
  | (Except.error e, tr) => (Except.error e, tr)

/-- The loop of `HoldContext.Release` (keyboard.go:221-226) over the reversed
key list: release each key, returning the wrapped error on the first failure. -/
def releaseLoop (env : KeyEnv) :
    List KeyboardKeys → Except KeyError Unit × List KeyEvent
  | [] => (Except.ok (), [])
  | k :: rest =>
    match VKeyUp env k with
    | (Except.error _, tr) => (Except.error (KeyError.releaseFailed k), tr)
    | (Except.ok _, tr) =>
      let r := releaseLoop env rest
      (r.1, tr ++ r.2)

/-- `HoldContext.Release` (keyboard.go:219): release all held keys in reverse
press order; on the first failure return the error with the held set
unchanged; on success clear the held set (`hc.keys = nil`). -/
def Release (env : KeyEnv) (hc : HoldContext) :
    Except KeyError Unit × HoldContext × List KeyEvent :=
  match releaseLoop env hc.keys.reverse with
  | (Except.ok _, tr) => (Except.ok (), ⟨[]⟩, tr)
  | (Except.error e, tr) => (Except.error e, hc, tr)

/-- The key-down loop of `HotKey` (keyboard.go:285-291): press each key,
returning the wrapped error on failure, sleeping `interval` after each
successful press. -/
def hotKeyDowns (env : KeyEnv) (interval : Int) :
    List KeyboardKeys → Except KeyError Unit × List KeyEvent
  | [] => (Except.ok (), [])
  | k :: rest =>
    match VKeyDown env k with
    | (Except.error _, tr) => (Except.error (KeyError.hotKeyPressFailed k), tr)
    | (Except.ok _, tr) =>
      let r := hotKeyDowns env interval rest
      (r.1, tr ++ [KeyEvent.sleep interval] ++ r.2)

/-- The key-up loop of `HotKey` (keyboard.go:296-302): release each key,
returning the wrapped error on failure, sleeping `interval` after each
successful release. -/
def hotKeyUps (env : KeyEnv) (interval : Int) :
    List KeyboardKeys → Except KeyError Unit × List KeyEvent
  | [] => (Except.ok (), [])
  | k :: rest =>
    match VKeyUp env k with
    | (Except.error _, tr) => (Except.error (KeyError.hotKeyReleaseFailed k), tr)
    | (Except.ok _, tr) =>
      let r := hotKeyUps env interval rest
      (r.1, tr ++ [KeyEvent.sleep interval] ++ r.2)

/-- `HotKey` (keyboard.go:280): error on an empty key list; otherwise press all
keys in argument order (sleeping after each), reverse the caller's `keys`
slice in place (keyboard.go:292-294), and release in the reversed order
(sleeping after each).  The second component of the result is the final
contents of the caller-visible `keys` slice. -/
def HotKey (env : KeyEnv) (interval : Int) (keys : List KeyboardKeys) :
    Except KeyError Unit × List KeyboardKeys × List KeyEvent :=
  if keys.isEmpty then (Except.error KeyError.noKeysProvided, keys, [])
  else
    match hotKeyDowns env interval keys with
    | (Except.error e, tr) => (Except.error e, keys, tr)
    | (Except.ok _, tr) =>
      let rev := keys.reverse
      let r := hotKeyUps env interval rev
      (r.1, rev, tr ++ r.2)

/-! ### Geometry and screen metrics (src/windows/windows.go, screen sources) -/

/-- `POINT` (windows.go:15): an x, y coordinate pair. -/
structure Pt where
  x : Int
  y : Int
deriving DecidableEq, Repr

/-- `image.Rectangle` from Go's standard library, as used by the screen
sources: min and max corners. -/
structure Rectangle where
  min : Pt
  max : Pt
deriving DecidableEq, Repr

/-- `Rectangle.Dx`. -/
def Rectangle.dx (r : Rectangle) : Int := r.max.x - r.min.x

/-- `Rectangle.Dy`. -/
def Rectangle.dy (r : Rectangle) : Int := r.max.y - r.min.y

/-- `Rectangle.Empty`: true iff the rectangle contains no points
(`r.Min.X >= r.Max.X || r.Min.Y >= r.Max.Y`). -/
def Rectangle.isEmpty (r : Rectangle) : Bool :=
  decide (r.max.x ≤ r.min.x) || decide (r.max.y ≤ r.min.y)

/-- `image.Rect(x0, y0, x1, y1)`: swaps the coordinates so that the result is
well-formed (min ≤ max componentwise). -/
def imageRect (x0 y0 x1 y1 : Int) : Rectangle :=
  let xs := if x0 > x1 then (x1, x0) else (x0, x1)
  let ys := if y0 > y1 then (y1, y0) else (y0, y1)
  ⟨⟨xs.1, ys.1⟩, ⟨xs.2, ys.2⟩⟩

/-- `win32.RECT`: a monitor rectangle as reported by `EnumDisplayMonitors`. -/
structure RECT where
  left : Int
  top : Int
  right : Int
  bottom : Int
deriving DecidableEq, Repr

/-- Ambient screen state read live from the OS on each call:
the primary-display metrics `SM_CXSCREEN`/`SM_CYSCREEN` and the monitor
rectangles collected by the `EnumDisplayMonitors` callback. -/
structure ScreenEnv where
  screenW : Int
  screenH : Int
  monitors : List RECT

/-- `GetScreenDimensions` (windows.go:51): primary display width and height. -/
def GetScreenDimensions (env : ScreenEnv) : Pt := ⟨env.screenW, env.screenH⟩

/-- `OnScreen` (windows.go:58): whether `(x, y)` lies within the primary
display. -/
def OnScreen (env : ScreenEnv) (x y : Int) : Bool :=
  decide (0 ≤ x) && decide (x < env.screenW) &&
    decide (0 ≤ y) && decide (y < env.screenH)

/-- `GetDisplayBounds` (part_002:313): collect all monitor rectangles; return
the index-th one (as an `image.Rect`), or the zero rectangle when the index is
negative or out of range. -/
def GetDisplayBounds (env : ScreenEnv) (displayIndex : Int) : Rectangle :=
  if displayIndex < 0 ∨ displayIndex ≥ (env.monitors.length : Int) then
    ⟨⟨0, 0⟩, ⟨0, 0⟩⟩
  else
    let r := env.monitors.getD displayIndex.toNat ⟨0, 0, 0, 0⟩
    imageRect r.left r.top r.right r.bottom

/-! ### Capture engine (src/unnamed/part_002, second file, lines 337-522;
`DisplayScreenShot` from the first file, lines 205-215) -/

/-- Errors of the capture pipeline.  Constructors stand for the Go messages:
* `cannotCreateImage`            — `"Cannot create image.RGBA"` (the spec's AllocationFailure)
* `getDCFailed` … `getDIBitsFailed` — the corresponding native-step messages
  (the spec's NativeCaptureFailure); `bitBltFailed` carries `GetLastError`
* `offScreen`                    — `"coordinates are off-screen"` (OutOfBoundsError)
* `negativeDisplayIndex`         — `"display index cannot be negative"`
* `invalidDisplayIndex`          — `"invalid display index"` (InvalidDisplayError)
* `getWindowRectFailed` / `getWindowDCFailed` / `createDIBSectionFailed` —
  the `CaptureWindow` failure messages. -/
inductive CaptureError where
  | cannotCreateImage
  | getDCFailed
  | createCompatibleDCFailed
  | createCompatibleBitmapFailed
  | bitBltFailed (lastError : Int)
  | globalAllocFailed
  | getDIBitsFailed
  | offScreen
  | negativeDisplayIndex
  | invalidDisplayIndex
  | getWindowRectFailed
  | getWindowDCFailed
  | createDIBSectionFailed
deriving DecidableEq, Repr

/-- A native call attempted by `Capture`, in program order.  The matching
deferred release calls (`ReleaseDC`, `DeleteDC`, `DeleteObject`, `GlobalFree`,
`GlobalUnlock`, the restoring `SelectObject`) always run when the acquisition
ran and are not recorded separately. -/
inductive NativeCall where
  | getDesktopWindow
  | getDC
  | createCompatibleDC
  | createCompatibleBitmap (w h : Int)
  | selectObject
  | bitBlt (x y w h : Int)
  | globalAlloc (bytes : Int)
  | globalLock
  | getDIBits
deriving DecidableEq, Repr

/-- Success/failure of each native step of `Capture`, plus the BGRA bytes that
`GetDIBits` deposits in the locked buffer on success. -/
structure CaptureEnv where
  getDCOk : Bool
  createDCOk : Bool
  createBitmapOk : Bool
  bitBltOk : Bool
  lastError : Int
  globalAllocOk : Bool
  getDIBitsOk : Bool
  bgra : Nat → UInt8

/-- `math.MaxInt64`, the bound at which `image.NewRGBA`'s buffer-length
computation (`pixelBufferLength` / `mul3NonNeg`) overflows and panics. -/
def maxInt64 : Int := 2 ^ 63 - 1

/-- `createImage` (part_002:338): calls `image.NewRGBA` under a `recover`;
the only deterministic panic is the `pixelBufferLength` overflow when
`4 * Dx * Dy` exceeds `MaxInt64`, which becomes the
`"Cannot create image.RGBA"` error.  The resulting (zero-initialised) image is
recorded by its dimensions. -/
def createImage (rect : Rectangle) : Except CaptureError (Int × Int) :=
  if 4 * rect.dx * rect.dy > maxInt64 then
    Except.error CaptureError.cannotCreateImage
  else Except.ok (rect.dx, rect.dy)

/-- The pixel-conversion loop of `Capture` (part_002:419-423) and
`CaptureWindow` (part_002:491-495): starting at pixel index `p` (byte offset
`dst = 4*p`), emit `count` destination pixels, each being
`buf[dst+2], buf[dst+1], buf[dst+0], 0xFF`. -/
def convertLoop (buf : Nat → UInt8) : Nat → Nat → List UInt8
  | _, 0 => []
  | p, count + 1 =>
    buf (4 * p + 2) :: buf (4 * p + 1) :: buf (4 * p) :: (255 : UInt8) ::
      convertLoop buf (p + 1) count

/-- `Capture` (part_002:357): create the RGBA buffer, then walk the native
pipeline — `GetDesktopWindow`/`GetDC`, `CreateCompatibleDC`,
`CreateCompatibleBitmap`, `SelectObject` (unchecked), `BitBlt`, `GlobalAlloc`
of `width*height*4` bytes, `GlobalLock`, `GetDIBits` — failing with the
corresponding error as soon as a step fails, and finally convert the BGRA
bytes to the returned RGBA pixel buffer.  The second component is the trace of
native calls attempted. -/
def Capture (env : CaptureEnv) (x y width height : Int) :
    Except CaptureError (List UInt8) × List NativeCall :=
  let rect := imageRect 0 0 width height
  match createImage rect with
  | Except.error e => (Except.error e, [])
  | Except.ok _ =>
    let tr0 : List NativeCall := [NativeCall.getDesktopWindow, NativeCall.getDC]
    if !env.getDCOk then (Except.error CaptureError.getDCFailed, tr0)
    else
      let tr1 := tr0 ++ [NativeCall.createCompatibleDC]
      if !env.createDCOk then (Except.error CaptureError.createCompatibleDCFailed, tr1)
      else
        let tr2 := tr1 ++ [NativeCall.createCompatibleBitmap width height]
        if !env.createBitmapOk then
          (Except.error CaptureError.createCompatibleBitmapFailed, tr2)
        else
          let tr3 := tr2 ++ [NativeCall.selectObject, NativeCall.bitBlt x y width height]
          if !env.bitBltOk then
            (Except.error (CaptureError.bitBltFailed env.lastError), tr3)
          else
            let byteCount := width * height * 4
            let tr4 := tr3 ++ [NativeCall.globalAlloc byteCount]
            if !env.globalAllocOk then (Except.error CaptureError.globalAllocFailed, tr4)
            else
              let tr5 := tr4 ++ [NativeCall.globalLock, NativeCall.getDIBits]
              if !env.getDIBitsOk then (Except.error CaptureError.getDIBitsFailed, tr5)
              else (Except.ok (convertLoop env.bgra 0 (width * height).toNat), tr5)

/-- `ScreenShot` (part_002:500): validate both corners against `OnScreen`
before delegating to `Capture`; no native call is attempted on failure. -/
def ScreenShot (senv : ScreenEnv) (cenv : CaptureEnv) (x y width height : Int) :
    Except CaptureError (List UInt8) × List NativeCall :=
  if !OnScreen senv x y || !OnScreen senv (x + width - 1) (y + height - 1) then
    (Except.error CaptureError.offScreen, [])
  else Capture cenv x y width height

/-- `CaptureRect` (part_002:508): capture the region of a rectangle. -/
def CaptureRect (cenv : CaptureEnv) (rect : Rectangle) :
    Except CaptureError (List UInt8) × List NativeCall :=
  Capture cenv rect.min.x rect.min.y rect.dx rect.dy

/-- `CaptureDisplay` (part_002:513): resolve the display bounds and delegate
to `CaptureRect` — with no emptiness check. -/
def CaptureDisplay (senv : ScreenEnv) (cenv : CaptureEnv) (displayIndex : Int) :
    Except CaptureError (List UInt8) × List NativeCall :=
  CaptureRect cenv (GetDisplayBounds senv displayIndex)

/-- `DisplayScreenShot` (first screen file, part_002:206): reject a negative
index, then reject an empty bounds rectangle, and only then delegate to
`CaptureRect`.  (That file's own `Capture` differs from the embedded one only
in the native-step order after the guards, which no claim depends on.) -/
def DisplayScreenShot (senv : ScreenEnv) (cenv : CaptureEnv) (displayIndex : Int) :
    Except CaptureError (List UInt8) × List NativeCall :=
  if displayIndex < 0 then (Except.error CaptureError.negativeDisplayIndex, [])
  else
    let rect := GetDisplayBounds senv displayIndex
    if rect.isEmpty then (Except.error CaptureError.invalidDisplayIndex, [])
    else CaptureRect cenv rect

/-- Native state for `CaptureWindow` (part_002:430): the window rectangle from
`GetWindowRect`, success of each acquisition step, whether
`PrintWindow(PW_RENDERFULLCONTENT)` reports success (on failure the code falls
back to `SendMessage(WM_PRINT, …)`; either way the DIB section's bytes are
what the conversion loop reads), and those BGRA bytes. -/
structure WindowEnv where
  getWindowRectOk : Bool
  rect : RECT
  getWindowDCOk : Bool
  createDCOk : Bool
  createDIBOk : Bool
  printWindowOk : Bool
  bits : Nat → UInt8

/-- `CaptureWindow` (part_002:430): resolve the window rectangle, acquire the
window DC, a compatible memory DC and a DIB section; draw via `PrintWindow`
or the `WM_PRINT` fallback; convert the DIB's BGRA bytes to the returned RGBA
buffer of `w*h` pixels. -/
def CaptureWindow (env : WindowEnv) : Except CaptureError (List UInt8) :=
  if !env.getWindowRectOk then Except.error CaptureError.getWindowRectFailed
  else
    let w := env.rect.right - env.rect.left
    let h := env.rect.bottom - env.rect.top
    if !env.getWindowDCOk then Except.error CaptureError.getWindowDCFailed
    else if !env.createDCOk then Except.error CaptureError.createCompatibleDCFailed
    else if !env.createDIBOk then Except.error CaptureError.createDIBSectionFailed
    else Except.ok (convertLoop env.bits 0 (w * h).toNat)

/-! ### Mouse driver (src/windows/mouse.go) -/

/-- `MouseButton` (mouse.go:13): an integer-backed enumeration; the seven
declared constants are `iota` values 0..6, but any integer is a value of the
type. -/
abbrev MouseButton := Int

/-- `MouseLeftButton` (mouse.go:22). -/
def MouseLeftButton : MouseButton := 0

/-- `MouseMiddleButton` (mouse.go:23). -/
def MouseMiddleButton : MouseButton := 1

/-- `MouseRightButton` (mouse.go:24). -/
def MouseRightButton : MouseButton := 2

/-- `MouseX1Button` (mouse.go:25). -/
def MouseX1Button : MouseButton := 3

/-- `MouseX2Button` (mouse.go:26). -/
def MouseX2Button : MouseButton := 4

/-- `MousePrimaryButton` (mouse.go:27). -/
def MousePrimaryButton : MouseButton := 5

/-- `MouseSecondaryButton` (mouse.go:28). -/
def MouseSecondaryButton : MouseButton := 6

/-- `MouseButton.String` (mouse.go:32). -/
def mouseButtonString (mb : MouseButton) : String :=
  if mb = MouseLeftButton then "Left Button"
  else if mb = MouseRightButton then "Right Button"
  else if mb = MouseMiddleButton then "Middle Button"
  else if mb = MousePrimaryButton then "Primary Button"
  else if mb = MouseSecondaryButton then "Secondary Button"
  else if mb = MouseX1Button then "X1 Button "
  else if mb = MouseX2Button then "X2 Button"
  else "Unknown Button"

/-- Errors of the mouse driver.  Constructors stand for the Go messages:
* `invalidButton s`     — `normalizeMouseButton`: `"invalid mouse button: %v"`
  with `s` the button's `String()` rendering
* `unsupportedButton mb` — `ClickAt`/`DragTo`: `"mouse button must be one of
  MouseLeftButton, MouseRightButton, or Middle; received %v"`
* `dragPressFailed` / `dragReleaseFailed` — `DragTo`'s wrappers
  `"failed to press mouse button down: %v"` and
  `"failed to release mouse button: %v"`. -/
inductive MouseError where
  | invalidButton (s : String)
  | unsupportedButton (mb : MouseButton)
  | dragPressFailed
  | dragReleaseFailed
deriving DecidableEq, Repr

/-- `normalizeMouseButton` (mouse.go:63): physical buttons pass through;
`Primary`/`Secondary` resolve against the live `IsMouseSwapped()` query
(`swapped` here is that query's result at call time); anything else is an
error. -/
def normalizeMouseButton (swapped : Bool) (mb : MouseButton) :
    Except MouseError MouseButton :=
  if mb = MouseLeftButton ∨ mb = MouseMiddleButton ∨ mb = MouseRightButton ∨
      mb = MouseX1Button ∨ mb = MouseX2Button then
    Except.ok mb
  else if mb = MousePrimaryButton then
    Except.ok (if swapped then MouseRightButton else MouseLeftButton)
  else if mb = MouseSecondaryButton then
    Except.ok (if swapped then MouseLeftButton else MouseRightButton)
  else Except.error (MouseError.invalidButton (mouseButtonString mb))

/-- One observable mouse action: a `mouse_event` button press/release (the
button after normalization, with the raw screen coordinates the caller passed
to `sendMouseEvent`), a `SetCursorPos` call, or a `time.Sleep` between drag
steps whose payload is the slept millisecond count
`time.Duration(sleepAmount*1000)`. -/
inductive MouseAction where
  | buttonDown (mb : MouseButton) (x y : Int)
  | buttonUp (mb : MouseButton) (x y : Int)
  | setCursorPos (x y : Int)
  | stepSleep (ms : Int)
deriving DecidableEq, Repr

/-- Ambient OS state read by the mouse driver: the button-swap flag, the
primary-display metrics, and the cursor position `GetCursorPos` reports at the
start of the call. -/
structure MouseEnv where
  swapped : Bool
  screenW : Int
  screenH : Int
  cursor : Pt

/-- `MouseDown` (mouse.go:116): normalize the button and emit the down event
via `sendMouseEvent` (whose 0–65535 coordinate conversion has no further
observable effect and is not recorded); emission itself cannot fail. -/
def MouseDown (env : MouseEnv) (mb : MouseButton) (x y : Int) :
    Except MouseError Bool × List MouseAction :=
  match normalizeMouseButton env.swapped mb with
  | Except.error e => (Except.error e, [])
  | Except.ok mb2 => (Except.ok true, [MouseAction.buttonDown mb2 x y])

/-- `MouseUp` (mouse.go:145): normalize the button and emit the up event. -/
def MouseUp (env : MouseEnv) (mb : MouseButton) (x y : Int) :
    Except MouseError Bool × List MouseAction :=
  match normalizeMouseButton env.swapped mb with
  | Except.error e => (Except.error e, [])
  | Except.ok mb2 => (Except.ok true, [MouseAction.buttonUp mb2 x y])

/-- `Lerp` (windows.go:22): the point at fraction `t` along the line from
`(x1, y1)` to `(x2, y2)`. -/
def Lerp (x1 y1 x2 y2 t : ℚ) : ℚ × ℚ :=
  (x1 + (x2 - x1) * t, y1 + (y2 - y1) * t)

/-- Go's `int(f)` conversion of a `float64`: truncation toward zero. -/
def intOfFloat (q : ℚ) : Int := Int.tdiv q.num (q.den : Int)

/-- The step-count computation of `DragTo` (mouse.go:363-372):
`numSteps = max(width, height)`, recomputed as `int(duration / 0.001)` when
the per-step sleep `duration / numSteps` would fall below
`MINIMUM_SLEEP = 0.001` seconds. -/
def dragNumSteps (width height : Int) (duration : ℚ) : Int :=
  let numSteps0 : Int := max width height
  let sleepAmount0 : ℚ := duration / (numSteps0 : ℚ)
  if sleepAmount0 < 1 / 1000 then intOfFloat (duration / (1 / 1000)) else numSteps0

/-- The interpolation loop of `DragTo` (mouse.go:375-383): for each step
`i < numSteps`, set the cursor to the `Lerp` position at `t = i/numSteps`
shifted by `+0.5` and converted with `int(…)`, then sleep. -/
def dragSteps (startX startY endX endY : ℚ) (numSteps : Int) (sleepMs : Int) :
    List MouseAction :=
  (List.range numSteps.toNat).flatMap fun i =>
    let t : ℚ := (i : ℚ) / (numSteps : ℚ)
    let tween := Lerp startX startY endX endY t
    [MouseAction.setCursorPos (intOfFloat (tween.1 + 1/2)) (intOfFloat (tween.2 + 1/2)),
     MouseAction.stepSleep sleepMs]

/-- `DragTo` (mouse.go:330): reject buttons outside {Left, Right, Middle};
return immediately when the cursor is already at the target; press at the
start position; for `duration ≤ 0.1` jump to the target and release;
otherwise interpolate over `numSteps = max(width, height)` steps — recomputed
as `int(duration / 0.001)` when the per-step sleep would be below 1 ms —
force-set the exact target and release. -/
def DragTo (env : MouseEnv) (x y : Int) (duration : ℚ) (mb : MouseButton) :
    Except MouseError Unit × List MouseAction :=
  if ¬(mb = MouseLeftButton ∨ mb = MouseRightButton ∨ mb = MouseMiddleButton) then
    (Except.error (MouseError.unsupportedButton mb), [])
  else
    let startPos := env.cursor
    if startPos.x = x ∧ startPos.y = y then (Except.ok (), [])
    else
      match MouseDown env mb startPos.x startPos.y with
      | (Except.error _, trD) => (Except.error MouseError.dragPressFailed, trD)
      | (Except.ok _, trD) =>
        if duration ≤ 1/10 then
          let r := MouseUp env mb x y
          ((match r.1 with
            | Except.ok _ => Except.ok ()
            | Except.error _ => Except.error MouseError.dragReleaseFailed),
           trD ++ [MouseAction.setCursorPos x y] ++ r.2)
        else
          let numSteps : Int := dragNumSteps env.screenW env.screenH duration
          let sleepAmount : ℚ := duration / (numSteps : ℚ)
          let r := MouseUp env mb x y
          ((match r.1 with
            | Except.ok _ => Except.ok ()
            | Except.error _ => Except.error MouseError.dragReleaseFailed),
           trD ++
             dragSteps (startPos.x : ℚ) (startPos.y : ℚ) (x : ℚ) (y : ℚ) numSteps
               (intOfFloat (sleepAmount * 1000)) ++
             [MouseAction.setCursorPos x y] ++ r.2)

/-! ### Concrete environments used by witnesses and counterexamples -/

/-- The oracle of the literal binding: every native keyboard emission reports
success. -/
def allOkKeyEnv : KeyEnv := ⟨fun _ _ => true⟩

/-- Oracle failing exactly the key-down emission of key 3. -/
def keyEnvFailDown3 : KeyEnv := ⟨fun k isUp => isUp || !(k == 3)⟩

/-- Oracle failing exactly the key-up emission of key 2. -/
def keyEnvFailUp2 : KeyEnv := ⟨fun k isUp => !(isUp && k == 2)⟩

/-! ### Keyboard driver lemmas -/

theorem hotKeyDowns_all_ok (env : KeyEnv) (interval : Int)
    (keys : List KeyboardKeys) (h : ∀ k ∈ keys, env.eventOk k false = true) :
    hotKeyDowns env interval keys =
      (Except.ok (), keys.flatMap fun k => [KeyEvent.down k, KeyEvent.sleep interval]) := by
  induction keys with
  | nil => rfl
  | cons k rest ih =>
    have hk : env.eventOk k false = true := h k (by simp)
    have hrest : ∀ k2 ∈ rest, env.eventOk k2 false = true := fun k2 hm => h k2 (by simp [hm])
    simp [hotKeyDowns, VKeyDown, sendKeyboardEvent, hk, ih hrest]

theorem hotKeyUps_all_ok (env : KeyEnv) (interval : Int)
    (keys : List KeyboardKeys) (h : ∀ k ∈ keys, env.eventOk k true = true) :
    hotKeyUps env interval keys =
      (Except.ok (), keys.flatMap fun k => [KeyEvent.up k, KeyEvent.sleep interval]) := by
  induction keys with
  | nil => rfl
  | cons k rest ih =>
    have hk : env.eventOk k true = true := h k (by simp)
    have hrest : ∀ k2 ∈ rest, env.eventOk k2 true = true := fun k2 hm => h k2 (by simp [hm])
    simp [hotKeyUps, VKeyUp, sendKeyboardEvent, hk, ih hrest]

theorem releaseLoop_all_ok (env : KeyEnv) (keys : List KeyboardKeys)
    (h : ∀ k ∈ keys, env.eventOk k true = true) :
    releaseLoop env keys = (Except.ok (), keys.map KeyEvent.up) := by
  induction keys with
  | nil => rfl
  | cons k rest ih =>
    have hk : env.eventOk k true = true := h k (by simp)
    have hrest : ∀ k2 ∈ rest, env.eventOk k2 true = true := fun k2 hm => h k2 (by simp [hm])
    simp [releaseLoop, VKeyUp, sendKeyboardEvent, hk, ih hrest]

theorem releaseLoop_fails_at (env : KeyEnv) (keys : List KeyboardKeys)
    (i : Nat) (hi : i < keys.length)
    (hok : ∀ k ∈ keys.take i, env.eventOk k true = true)
    (hfail : env.eventOk (keys.get ⟨i, hi⟩) true = false) :
    releaseLoop env keys =
      (Except.error (KeyError.releaseFailed (keys.get ⟨i, hi⟩)),
       (keys.take (i + 1)).map KeyEvent.up) := by
  induction keys generalizing i with
  | nil => exact absurd hi (by simp)
  | cons k rest ih =>
    cases i with
    | zero =>
      simp only [List.get] at hfail
      simp [releaseLoop, VKeyUp, sendKeyboardEvent, hfail]
    | succ j =>
      have hk : env.eventOk k true = true := hok k (by simp [List.take_succ_cons])
      have hokr : ∀ k2 ∈ rest.take j, env.eventOk k2 true = true := by
        intro k2 hm
        exact hok k2 (by simp [List.take_succ_cons, hm])
      have hj : j < rest.length := by simpa using hi
      have := ih j hj hokr (by simpa using hfail)
      simp [releaseLoop, VKeyUp, sendKeyboardEvent, hk, this, List.take_succ_cons]

theorem holdGo_fails_at (env : KeyEnv) (keys pressed : List KeyboardKeys)
    (i : Nat) (hi : i < keys.length)
    (hok : ∀ k ∈ keys.take i, env.eventOk k false = true)
    (hfail : env.eventOk (keys.get ⟨i, hi⟩) false = false) :
    holdGo env keys pressed =
      (Except.error (KeyError.holdPressFailed (keys.get ⟨i, hi⟩)),
       (keys.take (i + 1)).map KeyEvent.down ++
         (pressed ++ keys.take i).map KeyEvent.up) := by
  induction keys generalizing i pressed with
  | nil => exact absurd hi (by simp)
  | cons k rest ih =>
    cases i with
    | zero =>
      simp only [List.get] at hfail
      simp [holdGo, VKeyDown, sendKeyboardEvent, hfail]
    | succ j =>
      have hk : env.eventOk k false = true := hok k (by simp [List.take_succ_cons])
      have hokr : ∀ k2 ∈ rest.take j, env.eventOk k2 false = true := by
        intro k2 hm
        exact hok k2 (by simp [List.take_succ_cons, hm])
      have hj : j < rest.length := by simpa using hi
      have := ih (pressed ++ [k]) j hj hokr (by simpa using hfail)
      simp [holdGo, VKeyDown, sendKeyboardEvent, hk, this, List.take_succ_cons]

/-! ### Claim C3 (corrected) -/

/-- C3 counterexample: `Hold` over keys `[1, 2, 3]` with the press of key 3
failing emits the compensating releases as `up 1, up 2` — the press order —
and not `up 2, up 1` as the claim's "reverse press order" predicts. -/
theorem hold_cleanup_order_counterexample :
    (Hold keyEnvFailDown3 [1, 2, 3]).1 = Except.error (KeyError.holdPressFailed 3) ∧
    (Hold keyEnvFailDown3 [1, 2, 3]).2 =
      [KeyEvent.down 1, KeyEvent.down 2, KeyEvent.down 3,
       KeyEvent.up 1, KeyEvent.up 2] ∧
    (Hold keyEnvFailDown3 [1, 2, 3]).2 ≠
      [KeyEvent.down 1, KeyEvent.down 2, KeyEvent.down 3,
       KeyEvent.up 2, KeyEvent.up 1] := by decide

/-- C3 amended: if the press of the `i`-th key fails mid-sequence (all earlier
presses having succeeded), `Hold` returns the error and its event trace is the
`i+1` key-down emissions followed by compensating key-up emissions for exactly
the `i` successfully pressed keys, in press order (not reverse); no
partially-held state survives and no context is returned. -/
theorem hold_failed_press_compensates (env : KeyEnv) (keys : List KeyboardKeys)
    (i : Nat) (hi : i < keys.length)
    (hok : ∀ k ∈ keys.take i, env.eventOk k false = true)
    (hfail : env.eventOk (keys.get ⟨i, hi⟩) false = false) :
    Hold env keys =
      (Except.error (KeyError.holdPressFailed (keys.get ⟨i, hi⟩)),
       (keys.take (i + 1)).map KeyEvent.down ++ (keys.take i).map KeyEvent.up) := by
  have h := holdGo_fails_at env keys [] i hi hok hfail
  simp [Hold, h]

/-- Witness for the amended C3 theorem at keys `[1, 2, 3]`, failing index 2. -/
theorem hold_failed_press_compensates_witness :
    Hold keyEnvFailDown3 [1, 2, 3] =
      (Except.error (KeyError.holdPressFailed 3),
       [KeyEvent.down 1, KeyEvent.down 2, KeyEvent.down 3,
        KeyEvent.up 1, KeyEvent.up 2]) := by
  have h := hold_failed_press_compensates keyEnvFailDown3 [1, 2, 3] 2 (by decide)
    (by decide) (by decide)
  simpa using h

/-! ### Claim C7 (confirmed) -/

/-- C7: `HotKey` with an empty key list fails with the no-keys error; with a
non-empty list whose emissions all succeed, it emits key-down events in
argument order, a sleep of `interval` after each, then key-up events in
reverse order, a sleep of `interval` after each release as well. -/
theorem hotKey_order_spec (env : KeyEnv) (interval : Int) (keys : List KeyboardKeys) :
    (keys = [] →
      HotKey env interval keys = (Except.error KeyError.noKeysProvided, keys, [])) ∧
    (keys ≠ [] → (∀ k ∈ keys, env.eventOk k false = true) →
      (∀ k ∈ keys, env.eventOk k true = true) →
      HotKey env interval keys =
        (Except.ok (), keys.reverse,
         (keys.flatMap fun k => [KeyEvent.down k, KeyEvent.sleep interval]) ++
           keys.reverse.flatMap fun k => [KeyEvent.up k, KeyEvent.sleep interval])) := by
  constructor
  · intro h
    subst h
    rfl
  · intro hne hdown hup
    have hd := hotKeyDowns_all_ok env interval keys hdown
    have hu := hotKeyUps_all_ok env interval keys.reverse
      (fun k hm => hup k (List.mem_reverse.mp hm))
    have hempty : keys.isEmpty = false := by
      cases keys with
      | nil => exact absurd rfl hne
      | cons a l => rfl
    simp [HotKey, hempty, hd, hu]

/-- Witness for C7: `HotKey` over `[1, 2, 3]` with the all-success oracle. -/
theorem hotKey_order_spec_witness :
    HotKey allOkKeyEnv 7 [1, 2, 3] =
      (Except.ok (), [3, 2, 1],
       [KeyEvent.down 1, KeyEvent.sleep 7, KeyEvent.down 2, KeyEvent.sleep 7,
        KeyEvent.down 3, KeyEvent.sleep 7, KeyEvent.up 3, KeyEvent.sleep 7,
        KeyEvent.up 2, KeyEvent.sleep 7, KeyEvent.up 1, KeyEvent.sleep 7]) := by
  have h := (hotKey_order_spec allOkKeyEnv 7 [1, 2, 3]).2 (by decide)
    (fun k _ => rfl) (fun k _ => rfl)
  simpa using h

/-! ### Claim C8 (confirmed) -/

/-- C8: `Release` emits key-up events for all held keys in reverse press order
and on success clears the held set; on the first failing release it stops
immediately — the trace ends right after the failing emission, the remaining
keys are not retried, and the held set is left unchanged; and a `Release` on
an emptied context (such as one the first successful `Release` cleared) is a
no-op returning no error. -/
theorem release_spec (env : KeyEnv) (hc : HoldContext) :
    ((∀ k ∈ hc.keys, env.eventOk k true = true) →
      Release env hc = (Except.ok (), ⟨[]⟩, hc.keys.reverse.map KeyEvent.up)) ∧
    (∀ i : Nat, ∀ hi : i < hc.keys.reverse.length,
      (∀ k ∈ hc.keys.reverse.take i, env.eventOk k true = true) →
      env.eventOk (hc.keys.reverse.get ⟨i, hi⟩) true = false →
      Release env hc =
        (Except.error (KeyError.releaseFailed (hc.keys.reverse.get ⟨i, hi⟩)), hc,
         (hc.keys.reverse.take (i + 1)).map KeyEvent.up)) ∧
    Release env ⟨[]⟩ = (Except.ok (), ⟨[]⟩, []) := by
  refine ⟨?_, ?_, rfl⟩
  · intro h
    have hl := releaseLoop_all_ok env hc.keys.reverse
      (fun k hm => h k (List.mem_reverse.mp hm))
    simp [Release, hl]
  · intro i hi hok hfail
    have hl := releaseLoop_fails_at env hc.keys.reverse i hi hok hfail
    simp [Release, hl]

/-- Witness for C8: a successful `Release` of held keys `[1, 2, 3]` (reverse
order, set cleared), a second `Release` as no-op, and a fail-fast `Release`
stopping at key 2 with keys still held. -/
theorem release_spec_witness :
    Release allOkKeyEnv ⟨[1, 2, 3]⟩ =
      (Except.ok (), ⟨[]⟩, [KeyEvent.up 3, KeyEvent.up 2, KeyEvent.up 1]) ∧
    Release allOkKeyEnv ⟨[]⟩ = (Except.ok (), ⟨[]⟩, []) ∧
    Release keyEnvFailUp2 ⟨[1, 2, 3]⟩ =
      (Except.error (KeyError.releaseFailed 2), ⟨[1, 2, 3]⟩,
       [KeyEvent.up 3, KeyEvent.up 2]) := by
  refine ⟨?_, (release_spec allOkKeyEnv ⟨[]⟩).2.2, ?_⟩
  · have h := (release_spec allOkKeyEnv ⟨[1, 2, 3]⟩).1 (fun k _ => rfl)
    simpa using h
  · have h := (release_spec keyEnvFailUp2 ⟨[1, 2, 3]⟩).2.1 1 (by decide)
      (by decide) (by decide)
    simpa using h

/-! ### Claim C10 (confirmed) -/

/-- C10: after a `HotKey` call that returns no error, the caller-visible
`keys` slice holds the same keys in reversed order (the in-place reversal at
keyboard.go:292-294 is observable through the variadic slice). -/
theorem hotKey_reverses_caller_slice (env : KeyEnv) (interval : Int)
    (keys : List KeyboardKeys) (h : (HotKey env interval keys).1 = Except.ok ()) :
    (HotKey env interval keys).2.1 = keys.reverse := by
  by_cases hk : keys.isEmpty
  · rw [HotKey] at h
    simp [hk] at h
  · rcases hd : hotKeyDowns env interval keys with ⟨res, tr⟩
    rw [HotKey] at h ⊢
    simp only [hk, Bool.false_eq_true, if_false, hd] at h ⊢
    cases res with
    | error e => simp at h
    | ok v => simp

/-- Witness for C10 at keys `[1, 2, 3]` with the all-success oracle. -/
theorem hotKey_reverses_caller_slice_witness :
    (HotKey allOkKeyEnv 7 [1, 2, 3]).2.1 = [3, 2, 1] := by
  have h := hotKey_reverses_caller_slice allOkKeyEnv 7 [1, 2, 3] (by decide)
  simpa using h

/-! ### Capture engine: concrete environments and lemmas -/

/-- A fully cooperative native capture layer whose BGRA buffer is the
constant byte 37. -/
def cenvAllOk : CaptureEnv := ⟨true, true, true, true, 0, true, true, fun _ => 37⟩

/-- A native capture layer whose very first acquisition (`GetDC`) fails. -/
def cenvNoDC : CaptureEnv := ⟨false, true, true, true, 0, true, true, fun _ => 0⟩

/-- A 4×3 primary display with a single monitor of the same bounds. -/
def senvOne : ScreenEnv := ⟨4, 3, [⟨0, 0, 4, 3⟩]⟩

/-- A cooperative window-capture layer for a 2×1 window, BGRA bytes indexed by
position. -/
def wenvOk : WindowEnv := ⟨true, ⟨0, 0, 2, 1⟩, true, true, true, true, fun i => UInt8.ofNat i⟩

/-- The four bytes of pixel `p` in a row-major RGBA buffer. -/
def pixelAt (pix : List UInt8) (p : Nat) : List UInt8 := (pix.drop (4 * p)).take 4

theorem convertLoop_drop (buf : Nat → UInt8) :
    ∀ (k count p : Nat), k ≤ count →
    (convertLoop buf p count).drop (4 * k) = convertLoop buf (p + k) (count - k) := by
  intro k
  induction k with
  | zero => intro count p _; simp
  | succ j ih =>
    intro count p hk
    cases count with
    | zero => exact absurd hk (by omega)
    | succ c =>
      have h4 : 4 * (j + 1) = 4 + 4 * j := by ring
      rw [h4, ← List.drop_drop]
      have hfirst : (convertLoop buf p (c + 1)).drop 4 = convertLoop buf (p + 1) c := by
        simp [convertLoop]
      rw [hfirst, ih c (p + 1) (by omega)]
      congr 1 <;> omega

theorem convertLoop_pixelAt (buf : Nat → UInt8) (n p : Nat) (hp : p < n) :
    pixelAt (convertLoop buf 0 n) p =
      [buf (4 * p + 2), buf (4 * p + 1), buf (4 * p), 255] := by
  unfold pixelAt
  rw [convertLoop_drop buf p n 0 (by omega)]
  obtain ⟨m, hm⟩ : ∃ m, n - p = m + 1 := ⟨n - p - 1, by omega⟩
  rw [hm]
  simp [convertLoop]

/-- The successful result of `Capture` is the converted BGRA buffer of
`width*height` pixels. -/
theorem Capture_pix_of_ok (env : CaptureEnv) (x y width height : Int)
    (pix : List UInt8) (tr : List NativeCall)
    (hc : Capture env x y width height = (Except.ok pix, tr)) :
    pix = convertLoop env.bgra 0 (width * height).toNat := by
  rcases hci : createImage (imageRect 0 0 width height) with e | v
  · simp only [Capture, hci] at hc
    simp_all
  · simp only [Capture, hci] at hc
    split_ifs at hc <;> simp_all

/-- Under the no-overflow bound, `Capture`'s native-call trace starts with
`GetDesktopWindow` and its result is never the allocation error. -/
theorem Capture_reaches_native (env : CaptureEnv) (x y width height : Int)
    (hfit : 4 * (imageRect 0 0 width height).dx * (imageRect 0 0 width height).dy ≤ maxInt64) :
    (Capture env x y width height).1 ≠ Except.error CaptureError.cannotCreateImage ∧
    (Capture env x y width height).2.head? = some NativeCall.getDesktopWindow := by
  have hci : createImage (imageRect 0 0 width height) =
      Except.ok ((imageRect 0 0 width height).dx, (imageRect 0 0 width height).dy) := by
    rw [createImage, if_neg (by omega)]
  simp only [Capture, hci]
  split_ifs <;> simp

/-- The successful result of `CaptureWindow` is the converted BGRA buffer of
`w*h` pixels, where `w` and `h` come from the window rectangle. -/
theorem CaptureWindow_pix_of_ok (env : WindowEnv) (pix : List UInt8)
    (hc : CaptureWindow env = Except.ok pix) :
    pix = convertLoop env.bits 0
      ((env.rect.right - env.rect.left) * (env.rect.bottom - env.rect.top)).toNat := by
  simp only [CaptureWindow] at hc
  split_ifs at hc
  all_goals simp_all

/-! ### Claim C4 (confirmed) -/

/-- C4: `ScreenShot(x, y, width, height)` fails with the off-screen error and
performs no native call whenever either corner `(x, y)` or
`(x+width-1, y+height-1)` fails the `OnScreen` test; when both corners pass it
behaves exactly as `Capture(x, y, width, height)`. -/
theorem screenShot_bounds_guard (senv : ScreenEnv) (cenv : CaptureEnv)
    (x y width height : Int) :
    ((OnScreen senv x y = false ∨
        OnScreen senv (x + width - 1) (y + height - 1) = false) →
      ScreenShot senv cenv x y width height = (Except.error CaptureError.offScreen, [])) ∧
    (OnScreen senv x y = true → OnScreen senv (x + width - 1) (y + height - 1) = true →
      ScreenShot senv cenv x y width height = Capture cenv x y width height) := by
  constructor
  · intro h
    rcases h with h | h <;> simp [ScreenShot, h]
  · intro h1 h2
    simp [ScreenShot, h1, h2]

/-- Witness for C4 on the 4×3 display: a far corner off-screen fails without
native calls; a fully on-screen region delegates to `Capture`. -/
theorem screenShot_bounds_guard_witness :
    ScreenShot senvOne cenvAllOk 2 2 5 5 = (Except.error CaptureError.offScreen, []) ∧
    ScreenShot senvOne cenvAllOk 0 0 2 1 = Capture cenvAllOk 0 0 2 1 := by
  exact ⟨(screenShot_bounds_guard senvOne cenvAllOk 2 2 5 5).1 (by decide),
    (screenShot_bounds_guard senvOne cenvAllOk 0 0 2 1).2 (by decide) (by decide)⟩

/-! ### Claim C1 (corrected) -/

/-- C1 counterexample: with a single monitor, index 5 resolves to the empty
rectangle, yet `CaptureDisplay` does not fail with the invalid-display error
and does attempt a capture (native calls are made; with a cooperative native
layer the call even returns a zero-pixel buffer). -/
theorem captureDisplay_no_empty_guard_counterexample :
    (GetDisplayBounds senvOne 5).isEmpty = true ∧
    (CaptureDisplay senvOne cenvAllOk 5).1 = Except.ok [] ∧
    (CaptureDisplay senvOne cenvAllOk 5).1 ≠ Except.error CaptureError.invalidDisplayIndex ∧
    (CaptureDisplay senvOne cenvAllOk 5).2 ≠ [] := by decide

/-- C1 amended: `CaptureDisplay` delegates unconditionally to `CaptureRect` on
the resolved bounds, attempting a capture even when they are empty; the
guards the claim describes belong to `DisplayScreenShot`, which fails with the
negative-index error for a negative index and the invalid-display error for
empty bounds — both without any native call — and otherwise delegates. -/
theorem captureDisplay_delegation_spec (senv : ScreenEnv) (cenv : CaptureEnv)
    (idx : Int) :
    CaptureDisplay senv cenv idx = CaptureRect cenv (GetDisplayBounds senv idx) ∧
    (idx < 0 →
      DisplayScreenShot senv cenv idx =
        (Except.error CaptureError.negativeDisplayIndex, [])) ∧
    (0 ≤ idx → (GetDisplayBounds senv idx).isEmpty = true →
      DisplayScreenShot senv cenv idx =
        (Except.error CaptureError.invalidDisplayIndex, [])) ∧
    (0 ≤ idx → (GetDisplayBounds senv idx).isEmpty = false →
      DisplayScreenShot senv cenv idx = CaptureRect cenv (GetDisplayBounds senv idx)) := by
  refine ⟨rfl, ?_, ?_, ?_⟩
  · intro h
    simp [DisplayScreenShot, h]
  · intro h1 h2
    rw [DisplayScreenShot, if_neg (by omega)]
    simp [h2]
  · intro h1 h2
    rw [DisplayScreenShot, if_neg (by omega)]
    simp [h2]

/-- Witness for the amended C1: negative index, empty bounds at index 5, and
delegation at the valid index 0, on the single-monitor environment. -/
theorem captureDisplay_delegation_spec_witness :
    CaptureDisplay senvOne cenvAllOk 5 = CaptureRect cenvAllOk (GetDisplayBounds senvOne 5) ∧
    DisplayScreenShot senvOne cenvAllOk (-1) =
      (Except.error CaptureError.negativeDisplayIndex, []) ∧
    DisplayScreenShot senvOne cenvAllOk 5 =
      (Except.error CaptureError.invalidDisplayIndex, []) ∧
    DisplayScreenShot senvOne cenvAllOk 0 = CaptureRect cenvAllOk (GetDisplayBounds senvOne 0) := by
  exact ⟨(captureDisplay_delegation_spec senvOne cenvAllOk 5).1,
    (captureDisplay_delegation_spec senvOne cenvAllOk (-1)).2.1 (by decide),
    (captureDisplay_delegation_spec senvOne cenvAllOk 5).2.2.1 (by decide) (by decide),
    (captureDisplay_delegation_spec senvOne cenvAllOk 0).2.2.2 (by decide) (by decide)⟩

/-! ### Claim C2 (corrected) -/

/-- C2 counterexample: `Capture(0, 0, 0, 5)` — a zero-area rectangle — does
not fail with the allocation error and does invoke native calls; with a
cooperative native layer it even succeeds, returning a zero-pixel buffer. -/
theorem capture_degenerate_rect_counterexample :
    (Capture cenvAllOk 0 0 0 5).2 ≠ [] ∧
    (Capture cenvAllOk 0 0 0 5).1 ≠ Except.error CaptureError.cannotCreateImage ∧
    (Capture cenvAllOk 0 0 0 5).1 = Except.ok [] := by decide

/-- C2 amended: for `width ≤ 0` or `height ≤ 0` (with the normalized buffer
size not overflowing 64-bit — `image.Rect` flips negative extents, so
`createImage` succeeds), `Capture` does not fail with the allocation error; it
proceeds to native calls — `GetDesktopWindow` is the first entry of a
non-empty native trace — and any failure is that of a native step. -/
theorem capture_nonpositive_dims_reaches_native (env : CaptureEnv)
    (x y width height : Int) (_hdim : width ≤ 0 ∨ height ≤ 0)
    (hfit : 4 * (imageRect 0 0 width height).dx * (imageRect 0 0 width height).dy ≤ maxInt64) :
    (Capture env x y width height).1 ≠ Except.error CaptureError.cannotCreateImage ∧
    (Capture env x y width height).2.head? = some NativeCall.getDesktopWindow := by
  exact Capture_reaches_native env x y width height hfit

/-- Witness for the amended C2 at `Capture(0, 0, 0, 5)` (zero width) and at
`Capture(0, 0, -3, 5)` (negative width) against a failing-`GetDC` layer. -/
theorem capture_nonpositive_dims_reaches_native_witness :
    ((Capture cenvNoDC 0 0 0 5).1 ≠ Except.error CaptureError.cannotCreateImage ∧
      (Capture cenvNoDC 0 0 0 5).2.head? = some NativeCall.getDesktopWindow) ∧
    ((Capture cenvNoDC 0 0 (-3) 5).1 ≠ Except.error CaptureError.cannotCreateImage ∧
      (Capture cenvNoDC 0 0 (-3) 5).2.head? = some NativeCall.getDesktopWindow) := by
  exact ⟨capture_nonpositive_dims_reaches_native cenvNoDC 0 0 0 5 (Or.inl (by decide))
      (by decide),
    capture_nonpositive_dims_reaches_native cenvNoDC 0 0 (-3) 5 (Or.inl (by decide))
      (by decide)⟩

/-! ### Claim C6 (confirmed) -/

/-- C6: every pixel of the buffer returned by a successful `Capture` or
`CaptureWindow` has its alpha byte equal to 255 and its R, G, B bytes equal to
the source BGRA pixel's bytes at offsets 2, 1, 0. -/
theorem capture_pixel_format (cenv : CaptureEnv) (wenv : WindowEnv)
    (x y width height : Int) (pix pixW : List UInt8) (tr : List NativeCall) :
    (Capture cenv x y width height = (Except.ok pix, tr) →
      ∀ p : Nat, p < (width * height).toNat →
        pixelAt pix p =
          [cenv.bgra (4 * p + 2), cenv.bgra (4 * p + 1), cenv.bgra (4 * p), 255]) ∧
    (CaptureWindow wenv = Except.ok pixW →
      ∀ p : Nat,
        p < ((wenv.rect.right - wenv.rect.left) * (wenv.rect.bottom - wenv.rect.top)).toNat →
        pixelAt pixW p =
          [wenv.bits (4 * p + 2), wenv.bits (4 * p + 1), wenv.bits (4 * p), 255]) := by
  constructor
  · intro hc p hp
    rw [Capture_pix_of_ok cenv x y width height pix tr hc]
    exact convertLoop_pixelAt cenv.bgra _ p hp
  · intro hc p hp
    rw [CaptureWindow_pix_of_ok wenv pixW hc]
    exact convertLoop_pixelAt wenv.bits _ p hp

/-- Witness for C6 on a 2×1 capture (constant BGRA byte 37) and a 2×1 window
capture (BGRA byte = buffer offset): both pixels have alpha 255 and swapped
R/B channels. -/
theorem capture_pixel_format_witness :
    pixelAt [37, 37, 37, 255, 37, 37, 37, 255] 1 = [37, 37, 37, 255] ∧
    pixelAt [2, 1, 0, 255, 6, 5, 4, 255] 1 = [6, 5, 4, 255] := by
  have h1 := (capture_pixel_format cenvAllOk wenvOk 0 0 2 1
    [37, 37, 37, 255, 37, 37, 37, 255] [2, 1, 0, 255, 6, 5, 4, 255]
    [NativeCall.getDesktopWindow, NativeCall.getDC, NativeCall.createCompatibleDC,
     NativeCall.createCompatibleBitmap 2 1, NativeCall.selectObject,
     NativeCall.bitBlt 0 0 2 1, NativeCall.globalAlloc 8, NativeCall.globalLock,
     NativeCall.getDIBits]).1 (by decide) 1 (by decide)
  have h2 := (capture_pixel_format cenvAllOk wenvOk 0 0 2 1
    [37, 37, 37, 255, 37, 37, 37, 255] [2, 1, 0, 255, 6, 5, 4, 255]
    [NativeCall.getDesktopWindow, NativeCall.getDC, NativeCall.createCompatibleDC,
     NativeCall.createCompatibleBitmap 2 1, NativeCall.selectObject,
     NativeCall.bitBlt 0 0 2 1, NativeCall.globalAlloc 8, NativeCall.globalLock,
     NativeCall.getDIBits]).2 (by decide) 1 (by decide)
  refine ⟨by simpa using h1, by simpa using h2⟩

/-! ### Claim C5 (confirmed) -/

/-- C5: button normalization maps each physical button (Left, Middle, Right,
X1, X2) to itself; maps Primary to Left when the live swap-state query
reports unswapped and to Right when swapped; maps Secondary to Right when
unswapped and to Left when swapped; and fails with the invalid-button error on
every other value. -/
theorem normalizeMouseButton_spec (swapped : Bool) (mb : MouseButton) :
    ((mb = MouseLeftButton ∨ mb = MouseMiddleButton ∨ mb = MouseRightButton ∨
        mb = MouseX1Button ∨ mb = MouseX2Button) →
      normalizeMouseButton swapped mb = Except.ok mb) ∧
    normalizeMouseButton swapped MousePrimaryButton =
      Except.ok (if swapped then MouseRightButton else MouseLeftButton) ∧
    normalizeMouseButton swapped MouseSecondaryButton =
      Except.ok (if swapped then MouseLeftButton else MouseRightButton) ∧
    (mb ≠ MouseLeftButton → mb ≠ MouseMiddleButton → mb ≠ MouseRightButton →
      mb ≠ MouseX1Button → mb ≠ MouseX2Button → mb ≠ MousePrimaryButton →
      mb ≠ MouseSecondaryButton →
      normalizeMouseButton swapped mb =
        Except.error (MouseError.invalidButton (mouseButtonString mb))) := by
  refine ⟨?_, ?_, ?_, ?_⟩
  · intro h
    simp only [normalizeMouseButton]
    rw [if_pos h]
  · simp [normalizeMouseButton, MousePrimaryButton, MouseLeftButton, MouseMiddleButton,
      MouseRightButton, MouseX1Button, MouseX2Button]
  · simp [normalizeMouseButton, MouseSecondaryButton, MouseLeftButton, MouseMiddleButton,
      MouseRightButton, MouseX1Button, MouseX2Button, MousePrimaryButton]
  · intro h1 h2 h3 h4 h5 h6 h7
    simp only [normalizeMouseButton]
    rw [if_neg (by tauto), if_neg h6, if_neg h7]

/-- Witness for C5: X2 passes through; Primary resolves to Right when swapped
and Left when not; Secondary resolves to Left when swapped; the out-of-range
value 9 is rejected. -/
theorem normalizeMouseButton_spec_witness :
    normalizeMouseButton false MouseX2Button = Except.ok MouseX2Button ∧
    normalizeMouseButton true MousePrimaryButton = Except.ok MouseRightButton ∧
    normalizeMouseButton false MousePrimaryButton = Except.ok MouseLeftButton ∧
    normalizeMouseButton true MouseSecondaryButton = Except.ok MouseLeftButton ∧
    normalizeMouseButton false 9 = Except.error (MouseError.invalidButton "Unknown Button") := by
  have h9 := (normalizeMouseButton_spec false 9).2.2.2 (by decide) (by decide) (by decide)
    (by decide) (by decide) (by decide) (by decide)
  refine ⟨(normalizeMouseButton_spec false MouseX2Button).1
      (Or.inr (Or.inr (Or.inr (Or.inr rfl)))),
    by simpa using (normalizeMouseButton_spec true 0).2.1,
    by simpa using (normalizeMouseButton_spec false 0).2.1,
    by simpa using (normalizeMouseButton_spec true 0).2.2.1,
    by simpa [mouseButtonString, MouseLeftButton, MouseMiddleButton, MouseRightButton,
      MouseX1Button, MouseX2Button, MousePrimaryButton, MouseSecondaryButton] using h9⟩

/-! ### Claim C9 (corrected) -/

/-- Physical L/R/M buttons normalize to themselves under any swap state. -/
theorem normalize_physical (swapped : Bool) (mb : MouseButton)
    (h : mb = MouseLeftButton ∨ mb = MouseRightButton ∨ mb = MouseMiddleButton) :
    normalizeMouseButton swapped mb = Except.ok mb := by
  simp only [normalizeMouseButton]
  rw [if_pos (by tauto)]

/-- An environment for the C9 counterexample: 4×3 display, cursor at
`(-10, 0)` (on the virtual desktop left of the primary display). -/
def menvNeg : MouseEnv := ⟨false, 4, 3, ⟨-10, 0⟩⟩

/-- C9 counterexample: dragging from `(-10, 0)` to `(1, 0)` over 1 s on the
4×3 display takes 4 interpolation steps; at step 0 the linearly interpolated
position is exactly the start `(-10, 0)`, whose nearest integer is `-10`
itself, yet the emitted action sets the cursor x to `-9`: Go's
`int(tween + 0.5)` computes `int(-9.5) = -9`, truncating toward zero instead
of rounding to nearest for negative coordinates. -/
theorem dragTo_rounding_counterexample :
    (DragTo menvNeg 1 0 1 MouseLeftButton).1 = Except.ok () ∧
    Lerp (-10) 0 1 0 0 = (-10, 0) ∧
    (DragTo menvNeg 1 0 1 MouseLeftButton).2.get? 1 =
      some (MouseAction.setCursorPos (-9) 0) ∧
    (-9 : Int) ≠ -10 := by
  with_unfolding_all decide

/-- C9 amended: for a button in {Left, Right, Middle}: if the cursor is
already at `(x, y)`, `DragTo` returns immediately with the button never
pressed; if `duration ≤ 0.1` s it presses at the current position, jumps
directly to the target and releases; otherwise it presses at the current
position, performs `dragNumSteps` interpolation steps — `max(width, height)`,
recomputed as `int(duration / 0.001)` when the per-step sleep would be finer
than 1 ms — each step setting the cursor to the `Lerp` position at
`t = i/numSteps` *shifted by one half and truncated toward zero* (`int(t+0.5)`,
which is round-to-nearest only for non-negative coordinates), and finally
force-sets the exact target coordinate before releasing the button. -/
theorem dragTo_spec (env : MouseEnv) (x y : Int) (duration : ℚ) (mb : MouseButton)
    (hmb : mb = MouseLeftButton ∨ mb = MouseRightButton ∨ mb = MouseMiddleButton) :
    (env.cursor = ⟨x, y⟩ → DragTo env x y duration mb = (Except.ok (), [])) ∧
    (env.cursor ≠ ⟨x, y⟩ → duration ≤ 1 / 10 →
      DragTo env x y duration mb =
        (Except.ok (),
         [MouseAction.buttonDown mb env.cursor.x env.cursor.y,
          MouseAction.setCursorPos x y, MouseAction.buttonUp mb x y])) ∧
    (env.cursor ≠ ⟨x, y⟩ → 1 / 10 < duration →
      DragTo env x y duration mb =
        (Except.ok (),
         MouseAction.buttonDown mb env.cursor.x env.cursor.y ::
           (dragSteps (env.cursor.x : ℚ) (env.cursor.y : ℚ) (x : ℚ) (y : ℚ)
              (dragNumSteps env.screenW env.screenH duration)
              (intOfFloat (duration / (dragNumSteps env.screenW env.screenH duration : ℚ) * 1000)) ++
            [MouseAction.setCursorPos x y, MouseAction.buttonUp mb x y]))) := by
  have hneg : ¬¬(mb = MouseLeftButton ∨ mb = MouseRightButton ∨ mb = MouseMiddleButton) :=
    not_not_intro hmb
  have hmd : MouseDown env mb env.cursor.x env.cursor.y =
      (Except.ok true, [MouseAction.buttonDown mb env.cursor.x env.cursor.y]) := by
    simp [MouseDown, normalize_physical env.swapped mb hmb]
  have hmu : MouseUp env mb x y = (Except.ok true, [MouseAction.buttonUp mb x y]) := by
    simp [MouseUp, normalize_physical env.swapped mb hmb]
  refine ⟨?_, ?_, ?_⟩
  · intro hcur
    simp only [DragTo, if_neg hneg]
    rw [if_pos (show env.cursor.x = x ∧ env.cursor.y = y by rw [hcur]; exact ⟨rfl, rfl⟩)]
  · intro hne hdur
    have hcond : ¬(env.cursor.x = x ∧ env.cursor.y = y) := by
      rintro ⟨h1, h2⟩
      exact hne (by rw [← h1, ← h2])
    simp only [DragTo, if_neg hneg, if_neg hcond, hmd]
    rw [if_pos hdur]
    simp [hmu]
  · intro hne hdur
    have hcond : ¬(env.cursor.x = x ∧ env.cursor.y = y) := by
      rintro ⟨h1, h2⟩
      exact hne (by rw [← h1, ← h2])
    simp only [DragTo, if_neg hneg, if_neg hcond, hmd]
    rw [if_neg (not_le.mpr hdur)]
    simp [hmu]

/-- Witness for the amended C9: the no-op case at the target, the short-drag
case (`duration = 1/20`), and the interpolated drag of the counterexample
configuration, fully evaluated (4 steps of 250 ms). -/
theorem dragTo_spec_witness :
    DragTo ⟨false, 4, 3, ⟨1, 0⟩⟩ 1 0 1 MouseLeftButton = (Except.ok (), []) ∧
    DragTo menvNeg 1 0 (1 / 20) MouseLeftButton =
      (Except.ok (),
       [MouseAction.buttonDown MouseLeftButton (-10) 0,
        MouseAction.setCursorPos 1 0, MouseAction.buttonUp MouseLeftButton 1 0]) ∧
    DragTo menvNeg 1 0 1 MouseLeftButton =
      (Except.ok (),
       [MouseAction.buttonDown MouseLeftButton (-10) 0,
        MouseAction.setCursorPos (-9) 0, MouseAction.stepSleep 250,
        MouseAction.setCursorPos (-6) 0, MouseAction.stepSleep 250,
        MouseAction.setCursorPos (-4) 0, MouseAction.stepSleep 250,
        MouseAction.setCursorPos (-1) 0, MouseAction.stepSleep 250,
        MouseAction.setCursorPos 1 0, MouseAction.buttonUp MouseLeftButton 1 0]) := by
  have h1 := (dragTo_spec ⟨false, 4, 3, ⟨1, 0⟩⟩ 1 0 1 MouseLeftButton (Or.inl rfl)).1 rfl
  have h2 := (dragTo_spec menvNeg 1 0 (1 / 20) MouseLeftButton (Or.inl rfl)).2.1
    (by decide) (by norm_num)
  have h3 := (dragTo_spec menvNeg 1 0 1 MouseLeftButton (Or.inl rfl)).2.2
    (by decide) (by norm_num)
  refine ⟨h1, by simpa using h2, h3.trans ?_⟩
  with_unfolding_all decide

end GoAutoGui
